import Mathlib

/-!
Verification of `google/colab/_interactive_table_hint_button.py`.

The module is a display-formatter shim: it keeps two caches of recently
rendered dataframes (a weak-value dictionary `_noninteractive_df_refs` and a
single-entry dictionary `_last_noninteractive_df`), a formatter
`_df_formatter_with_interactive_hint` that renders a dataframe together with a
"convert to interactive" button, retrieval helpers `_get_dataframe`,
`_convert_to_interactive` and `_get_last_dataframe_key`, and an
enable/disable pair that swaps the `text/html` formatter registered for
`pandas.core.frame.DataFrame` on the host notebook shell.

The embedding passes the module-level state explicitly.  Python dictionaries
become insertion-ordered association lists; the weak semantics of
`WeakValueDictionary` (entries vanishing on garbage collection) is outside the
module's own control flow and is not modelled: entries persist until the code
removes them.  Randomness (`uuid.uuid4()`) and fresh object identities are
passed in as oracle arguments.
-/

namespace InteractiveTableHint

/-- A pandas dataframe, modelled abstractly: `oid` is the Python object's
identity and `html` the rendering its `_repr_html_()` returns.  A shallow copy
(`copy(deep=False)`) is a new object sharing the underlying data, hence the
same rendering. -/
structure DF where
  oid : Nat
  html : String
  deriving DecidableEq, Repr

/-- `dataframe.copy(deep, ...)` (pandas): allocates a new object (`newOid`);
with `deep=False` the data is shared, so the rendering is that of the
original.  Only `copy(deep=False)` is used by the module. -/
def DF.copy (df : DF) (deep : Bool) (newOid : Nat) : DF :=
  ⟨newOid, df.html⟩

/-- `dataframe._repr_html_()` (pandas): the dataframe's own HTML rendering. -/
def DF.repr_html (df : DF) : String :=
  df.html

/-- A Python `dict` with string keys: an insertion-ordered association list
(Python dictionaries preserve insertion order and have unique keys). -/
abbrev Dict (α : Type) : Type := List (String × α)

/-- `k in d`. -/
def dcontains {α : Type} (d : Dict α) (k : String) : Bool :=
  d.any (fun p => p.1 == k)

/-- `d[k]` / `d.get(k)`. -/
def dget {α : Type} (d : Dict α) (k : String) : Option α :=
  match d with
  | [] => none
  | p :: ps => if p.1 == k then some p.2 else dget ps k

/-- `d[k] = v`: overwrites in place when the key is present (keeping its
position), appends otherwise. -/
def dinsert {α : Type} (d : Dict α) (k : String) (v : α) : Dict α :=
  match d with
  | [] => [(k, v)]
  | p :: ps => if p.1 == k then (k, v) :: ps else p :: dinsert ps k v

/-- Removal of a key, as performed by `d.pop(k)`. -/
def dremove {α : Type} (d : Dict α) (k : String) : Dict α :=
  d.filter (fun p => p.1 != k)

/-- `d.pop(k)`: the stored value (if any) and the dictionary without it. -/
def dpop {α : Type} (d : Dict α) (k : String) : Option α × Dict α :=
  (dget d k, dremove d k)

/-- `list(d.keys())`: the keys in insertion order. -/
def dkeys {α : Type} (d : Dict α) : List String :=
  d.map Prod.fst

/-- The module-level mutable state of the caching side:
`_noninteractive_df_refs` (the weak-value dictionary),
`_last_noninteractive_df` (the single-entry strong cache) and
`_output_callbacks` (the callbacks registered with the host bridge,
`google.colab.output`; that subsystem is not under `src/`, so registering is
modelled as recording the callback name). -/
structure CacheState where
  noninteractive_df_refs : Dict DF
  last_noninteractive_df : Dict DF
  output_callbacks : Dict Unit
  deriving DecidableEq, Repr

/-- Modelled from the spec: `google.colab.data_table.DataTable`, the
"alternate interactive renderer owned by a separate subsystem" (its code is
not under `src/`), modelled as a wrapper holding the dataframe it renders. -/
structure DataTable where
  df : DF
  deriving DecidableEq, Repr

/-- The message `_get_dataframe` prints when neither cache holds the key
(adjacent Python string literals concatenated). -/
def _get_dataframe_error_message : String :=
  "Error: Runtime no longer has a reference to this dataframe, please re-run this cell and try again."

/-- `_get_dataframe(key)`: checks the single-entry cache first, then the
weak-value cache, popping the entry it returns; prints an error and returns
`None` when the key is in neither.  Result: (returned value, printed lines,
state after the call). -/
def _get_dataframe (s : CacheState) (key : String) :
    Option DF × List String × CacheState :=
  if dcontains s.last_noninteractive_df key then
    let r := dpop s.last_noninteractive_df key
    (r.1, [], { s with last_noninteractive_df := r.2 })
  else if dcontains s.noninteractive_df_refs key then
    let r := dpop s.noninteractive_df_refs key
    (r.1, [], { s with noninteractive_df_refs := r.2 })
  else
    (none, [_get_dataframe_error_message], s)

/-- `_convert_to_interactive(key)`: converts a stored df into a data table if
a reference to it is still held. -/
def _convert_to_interactive (s : CacheState) (key : String) :
    Option DataTable × List String × CacheState :=
  match _get_dataframe s key with
  | (some df, out, s1) => (some ⟨df⟩, out, s1)
  | (none, out, s1) => (none, out, s1)

/-- `_get_last_dataframe_key()`: the first key of `_last_noninteractive_df`,
`None` when it is empty. -/
def _get_last_dataframe_key (s : CacheState) : Option String :=
  (dkeys s.last_noninteractive_df).head?

/-- `_ICON_SVG`, transcribed verbatim. -/
def _ICON_SVG : String :=
  "\n  <svg xmlns=\x22http://www.w3.org/2000/svg\x22 height=\x2224px\x22 viewBox=\x220 -960 960 960\x22>\n    <path d=\x22M120-120v-720h720v720H120Zm60-500h600v-160H180v160Zm220 220h160v-160H400v160Zm0 220h160v-160H400v160ZM180-400h160v-160H180v160Zm440 0h160v-160H620v160ZM180-180h160v-160H180v160Zm440 0h160v-160H620v160Z\x22/>\n  </svg>"

/-- `_HINT_BUTTON_CSS`, transcribed verbatim (`\x7b`/`\x7d` are the literal
braces of the CSS text). -/
def _HINT_BUTTON_CSS : String :=
  "\n  <style>\n    .colab-df-container \x7b\n      display:flex;\n      gap: 12px;\n    \x7d\n\n    .colab-df-convert \x7b\n      background-color: #E8F0FE;\n      border: none;\n      border-radius: 50%;\n      cursor: pointer;\n      display: none;\n      fill: #1967D2;\n      height: 32px;\n      padding: 0 0 0 0;\n      width: 32px;\n    \x7d\n\n    .colab-df-convert:hover \x7b\n      background-color: #E2EBFA;\n      box-shadow: 0px 1px 2px rgba(60, 64, 67, 0.3), 0px 1px 3px 1px rgba(60, 64, 67, 0.15);\n      fill: #174EA6;\n    \x7d\n\n    .colab-df-buttons div \x7b\n      margin-bottom: 4px;\n    \x7d\n\n    [theme=dark] .colab-df-convert \x7b\n      background-color: #3B4455;\n      fill: #D2E3FC;\n    \x7d\n\n    [theme=dark] .colab-df-convert:hover \x7b\n      background-color: #434B5C;\n      box-shadow: 0px 1px 3px 1px rgba(0, 0, 0, 0.15);\n      filter: drop-shadow(0px 1px 2px rgba(0, 0, 0, 0.3));\n      fill: #FFFFFF;\n    \x7d\n  </style>\n"

/-- Python's `sep.join(xs)`. -/
def pyJoin (sep : String) : List String → String
  | [] => ""
  | [b] => b
  | b :: bs => b ++ sep ++ pyJoin sep bs

/-- `_get_button_html(key)`.  `data_table_url` stands for
`_data_table._DATA_TABLE_HELP_URL`; the `data_table` module is not under
`src/`, so (modelled from the spec: the URL of the "data table notebook" help
page) it is an opaque parameter.  The Python format template is transcribed as
an explicit concatenation, split at the `{key}`, `{icon}`, `{css}` and
`{data_table_url}` substitution points; `\x7b`/`\x7d` are the template's
literal braces (`\x7b\x7b` escapes) and `\x27` its single quotes. -/
def _get_button_html (data_table_url : String) (key : String) : String :=
  "\n  <div class=\x22colab-df-container\x22>\n    <button class=\x22colab-df-convert\x22 onclick=\x22" ++
  "convertToInteractive(\x27" ++ key ++ "\x27)" ++
  "\x22\n            title=\x22Convert this dataframe to an interactive table.\x22\n            style=\x22display:none;\x22>\n      " ++
  _ICON_SVG ++
  "\n    </button>\n    " ++
  _HINT_BUTTON_CSS ++
  "\n    <script>\n      const buttonEl =\n        document.querySelector(\x27#" ++
  key ++
  " button.colab-df-convert\x27);\n      buttonEl.style.display =\n        google.colab.kernel.accessAllowed ? \x27block\x27 : \x27none\x27;\n\n      async function convertToInteractive(key) \x7b\n        const element = document.querySelector(\x27#" ++
  key ++
  "\x27);\n        const dataTable =\n          await " ++
  "google.colab.kernel.invokeFunction(\x27convertToInteractive\x27" ++
  ",\n                                                    [key], \x7b\x7d);\n        if (!dataTable) return;\n\n        const docLinkHtml = \x27Like what you see? Visit the \x27 +\n          \x27<a target=\x22_blank\x22 href=" ++
  data_table_url ++
  ">data table notebook</a>\x27\n          + \x27 to learn more about interactive tables.\x27;\n        element.innerHTML = \x27\x27;\n        dataTable[\x27output_type\x27] = \x27display_data\x27;\n        await " ++
  "google.colab.output.renderOutput" ++
  "(dataTable, element);\n        const docLink = document.createElement(\x27div\x27);\n        docLink.innerHTML = docLinkHtml;\n        element.appendChild(docLink);\n      \x7d\n    </script>\n  </div>\n  "

/-- `_get_html(dataframe, key, buttons)`: the container div holding the
dataframe's own rendering and the buttons, joined by newlines. -/
def _get_html (dataframe : DF) (key : String) (buttons : List String) : String :=
  let buttons_str := pyJoin "\n" buttons
  "\n  " ++ "<div id=\x22" ++ key ++ "\x22" ++ " class=\x22colab-df-container\x22>\n    " ++
  dataframe.repr_html ++
  "\n    <div class=\x22colab-df-buttons\x22>\n      " ++
  buttons_str ++
  "\n    </div>\n  </div>\n  "

/-- `_df_formatter_with_interactive_hint(dataframe, buttons=None)`.
`uuid` is the oracle value of `str(_uuid.uuid4())` for this call and
`copyOid` the identity of the new object `dataframe.copy(deep=False)`
allocates.  `_last_noninteractive_df.clear()` followed by the keyed insert is
`dinsert [] key _`; `if not buttons: buttons = []` replaces a missing or
empty argument by `[]` (`Option.getD`, since `[]` is already `[]`); the
callback is registered with the host bridge only once.  Result: (returned
HTML, state after the call). -/
def _df_formatter_with_interactive_hint (data_table_url uuid : String)
    (copyOid : Nat) (s : CacheState) (dataframe : DF)
    (buttons : Option (List String)) : String × CacheState :=
  let key := "df-" ++ uuid
  let refs := dinsert s.noninteractive_df_refs key dataframe
  let last : Dict DF := dinsert ([] : Dict DF) key (dataframe.copy false copyOid)
  let callbacks :=
    if dcontains s.output_callbacks "convertToInteractive" then s.output_callbacks
    else dinsert s.output_callbacks "convertToInteractive" ()
  let buttonList := _get_button_html data_table_url key :: buttons.getD []
  ( _get_html dataframe key buttonList,
    { noninteractive_df_refs := refs
      last_noninteractive_df := last
      output_callbacks := callbacks } )

/-- An HTML display formatter registered on the host shell, compared by
identity: `hint` is `_df_formatter_with_interactive_hint` itself, `other n`
any other formatter object. -/
inductive Formatter where
  | hint
  | other (n : Nat)
  deriving DecidableEq, Repr

/-- Modelled from the spec: one MIME type's formatter registry on the host
notebook shell ("registration/deregistration of a display-formatter hook on a
host notebook runtime"; IPython is not under `src/`).  The registry maps
dotted type names to formatters; `for_type_by_name` returns the previously
registered formatter and registers the new one, registering nothing when
passed `None`; `pop` (here `popType`) deregisters a dotted type name. -/
structure MimeFormatter where
  table : Dict Formatter
  deriving DecidableEq, Repr

/-- `formatters[mime].for_type_by_name(type_module, type_name, func)`. -/
def MimeFormatter.for_type_by_name (f : MimeFormatter)
    (type_module type_name : String) (func : Option Formatter) :
    Option Formatter × MimeFormatter :=
  let k := type_module ++ "." ++ type_name
  match func with
  | none => (dget f.table k, f)
  | some fn => (dget f.table k, ⟨dinsert f.table k fn⟩)

/-- `formatters[mime].pop(dotted_name, None)`. -/
def MimeFormatter.popType (f : MimeFormatter) (dotted : String) : MimeFormatter :=
  ⟨dremove f.table dotted⟩

/-- Modelled from the spec: the host notebook shell
(`_IPython.get_ipython()`).  Only `shell.display_formatter.formatters['text/html']`
is ever touched by this module (and that registry always exists on a real
shell), so the model carries that registry as a field. -/
structure Shell where
  htmlFormatter : MimeFormatter
  deriving DecidableEq, Repr

/-- The state the enable/disable pair acts on: the ambient shell
(`None` when not running under a notebook) and the module-level
`_original_formatters` dictionary, whose stored value is the formatter
previously registered for DataFrames (possibly `None`). -/
structure RegState where
  shell : Option Shell
  original_formatters : Dict (Option Formatter)
  deriving DecidableEq, Repr

/-- `_enable_df_interactive_hint_formatter()`: on a shell, if no original is
saved yet, registers the hint formatter for `pandas.core.frame.DataFrame`
under `text/html` and saves the formatter previously registered there. -/
def _enable_df_interactive_hint_formatter (s : RegState) : RegState :=
  match s.shell with
  | none => s
  | some sh =>
    if dcontains s.original_formatters "text/html" then s
    else
      let r := sh.htmlFormatter.for_type_by_name "pandas.core.frame" "DataFrame"
        (some Formatter.hint)
      { shell := some ⟨r.2⟩
        original_formatters := dinsert s.original_formatters "text/html" r.1 }

/-- `_disable_df_interactive_hint_formatter()`: on a shell, if an original is
saved, pops the DataFrame entry from the `text/html` registry and re-registers
the saved original (registering nothing when the saved value is `None`). -/
def _disable_df_interactive_hint_formatter (s : RegState) : RegState :=
  match s.shell with
  | none => s
  | some sh =>
    if dcontains s.original_formatters "text/html" then
      let f1 := sh.htmlFormatter.popType "pandas.core.frame.DataFrame"
      let r := dpop s.original_formatters "text/html"
      let r2 := f1.for_type_by_name "pandas.core.frame" "DataFrame" (r.1.getD none)
      { shell := some ⟨r2.2⟩, original_formatters := r.2 }
    else s

/-- `needle` occurs as a contiguous substring of `hay`. -/
def StrContains (hay needle : String) : Prop :=
  ∃ p q : String, hay = p ++ (needle ++ q)

/-! Basic lemmas about the dictionary operations. -/

theorem dcontains_eq_isSome {α : Type} (d : Dict α) (k : String) :
    dcontains d k = (dget d k).isSome := by
  induction d with
  | nil => rfl
  | cons p ps ih =>
    by_cases h : p.1 == k
    · simp [dcontains, dget, h]
    · simp only [dcontains, List.any_cons, h, Bool.false_or, dget, if_neg] at ih ⊢
      exact ih

theorem dget_dinsert_self {α : Type} (d : Dict α) (k : String) (v : α) :
    dget (dinsert d k v) k = some v := by
  induction d with
  | nil => simp [dinsert, dget]
  | cons p ps ih =>
    by_cases h : p.1 == k
    · simp [dinsert, dget, h]
    · simp [dinsert, dget, h, ih]

theorem dremove_dinsert {α : Type} (d : Dict α) (k : String) (v : α) :
    dremove (dinsert d k v) k = dremove d k := by
  induction d with
  | nil => simp [dinsert, dremove]
  | cons p ps ih =>
    by_cases h : p.1 == k
    · simp [dinsert, dremove, h, List.filter, bne]
    · simp only [dinsert, h, if_neg, Bool.false_eq_true, not_false_eq_true]
      simp only [dremove, List.filter] at ih ⊢
      rw [ih]

theorem dremove_of_not_contains {α : Type} (d : Dict α) (k : String)
    (h : dcontains d k = false) : dremove d k = d := by
  induction d with
  | nil => rfl
  | cons p ps ih =>
    simp only [dcontains, List.any_cons, Bool.or_eq_false_iff] at h
    have h2 := ih (by simpa [dcontains] using h.2)
    simp only [dremove, List.filter, bne, h.1, Bool.not_false] at h2 ⊢
    rw [h2]

theorem dget_dremove_self {α : Type} (d : Dict α) (k : String) :
    dget (dremove d k) k = none := by
  induction d with
  | nil => rfl
  | cons p ps ih =>
    by_cases h : p.1 == k
    · simpa [dremove, List.filter, bne, h] using ih
    · simpa [dremove, List.filter, bne, h, dget] using ih

theorem dcontains_dremove_self {α : Type} (d : Dict α) (k : String) :
    dcontains (dremove d k) k = false := by
  rw [dcontains_eq_isSome, dget_dremove_self]
  rfl

theorem length_dremove_le {α : Type} (d : Dict α) (k : String) :
    (dremove d k).length ≤ d.length :=
  List.length_filter_le _ d

/-! Basic lemmas about strings and `StrContains`. -/

theorem string_append_left_cancel {a b c : String} (h : a ++ b = a ++ c) :
    b = c := by
  have h2 := congrArg String.data h
  simp only [String.data_append] at h2
  exact String.ext (List.append_cancel_left h2)

theorem pyJoin_cons (sep b : String) (bs : List String) :
    ∃ t : String, pyJoin sep (b :: bs) = b ++ t := by
  cases bs with
  | nil => exact ⟨"", (String.append_empty b).symm⟩
  | cons x xs =>
    exact ⟨sep ++ pyJoin sep (x :: xs), by simp [pyJoin, String.append_assoc]⟩

theorem dcontains_dinsert_self {α : Type} (d : Dict α) (k : String) (v : α) :
    dcontains (dinsert d k v) k = true := by
  rw [dcontains_eq_isSome, dget_dinsert_self]
  rfl

theorem strContains_head (a rest : String) : StrContains (a ++ rest) a :=
  ⟨"", rest, (String.empty_append _).symm⟩

theorem strContains_cons {hay needle : String} (a : String)
    (h : StrContains hay needle) : StrContains (a ++ hay) needle := by
  obtain ⟨p, q, rfl⟩ := h
  exact ⟨a ++ p, q, by rw [String.append_assoc]⟩

theorem strContains_take3 (a b c rest : String) :
    StrContains (a ++ (b ++ (c ++ rest))) (a ++ (b ++ c)) :=
  ⟨"", rest, by simp [String.append_assoc, String.empty_append]⟩

theorem strContains_take4 (a b c d rest : String) :
    StrContains (a ++ (b ++ (c ++ (d ++ rest)))) (a ++ (b ++ (c ++ d))) :=
  ⟨"", rest, by simp [String.append_assoc, String.empty_append]⟩

example : _get_dataframe ⟨[], [], []⟩ "df-x"
    = (none, [_get_dataframe_error_message], ⟨[], [], []⟩) := by decide

example : (_get_dataframe ⟨[("df-a", ⟨1, "h"⟩)], [("df-a", ⟨2, "h"⟩)], []⟩ "df-a").1
    = some ⟨2, "h"⟩ := by decide

/-- C1: after `_df_formatter_with_interactive_hint` formats a dataframe under
a fresh key, `_convert_to_interactive` on that key — with no intervening
formats or retrievals — retrieves the stored reference to that dataframe from
one of the two caches (here the single-entry cache, which is checked first
and holds the shallow copy, rendering identically to the original) and
returns it wrapped as a `DataTable`. -/
theorem convert_after_format_returns_stored_df
    (url uuid : String) (copyOid : Nat) (s : CacheState) (df : DF)
    (buttons : Option (List String)) :
    let s1 := (_df_formatter_with_interactive_hint url uuid copyOid s df buttons).2
    let key := "df-" ++ uuid
    dget s1.last_noninteractive_df key = some (df.copy false copyOid) ∧
    (_convert_to_interactive s1 key).1 = some ⟨df.copy false copyOid⟩ ∧
    (df.copy false copyOid).repr_html = df.repr_html := by
  intro s1 key
  simp [_df_formatter_with_interactive_hint, _convert_to_interactive,
    _get_dataframe, dinsert, dget, dcontains, dpop, dremove, DF.copy,
    DF.repr_html, s1, key]

/-- C3: `_last_noninteractive_df` is a single-entry cache: immediately after
any call to `_df_formatter_with_interactive_hint` it holds exactly one entry,
keyed by that call's key (the previous entry having been cleared), and the
retrieval operations never grow it beyond one entry. -/
theorem last_cache_single_entry :
    (∀ (url uuid : String) (copyOid : Nat) (s : CacheState) (df : DF)
        (buttons : Option (List String)),
      ((_df_formatter_with_interactive_hint url uuid copyOid s df
          buttons).2).last_noninteractive_df
        = [("df-" ++ uuid, df.copy false copyOid)]) ∧
    (∀ (s : CacheState) (k : String), s.last_noninteractive_df.length ≤ 1 →
      ((_get_dataframe s k).2.2).last_noninteractive_df.length ≤ 1) ∧
    (∀ (s : CacheState) (k : String), s.last_noninteractive_df.length ≤ 1 →
      ((_convert_to_interactive s k).2.2).last_noninteractive_df.length ≤ 1) := by
  have hget : ∀ (s : CacheState) (k : String),
      s.last_noninteractive_df.length ≤ 1 →
      ((_get_dataframe s k).2.2).last_noninteractive_df.length ≤ 1 := by
    intro s k h
    by_cases h1 : dcontains s.last_noninteractive_df k
    · simp only [_get_dataframe, h1, if_true, dpop]
      exact le_trans (length_dremove_le _ _) h
    · by_cases h2 : dcontains s.noninteractive_df_refs k
      · simp only [_get_dataframe, h1, h2, Bool.false_eq_true, if_false,
          if_true, dpop]
        exact h
      · simp only [_get_dataframe, h1, h2, Bool.false_eq_true, if_false]
        exact h
  refine ⟨?_, hget, ?_⟩
  · intro url uuid copyOid s df buttons
    simp [_df_formatter_with_interactive_hint, dinsert, DF.copy]
  · intro s k h
    have hsame : (_convert_to_interactive s k).2.2 = (_get_dataframe s k).2.2 := by
      rcases hr : _get_dataframe s k with ⟨o, out, s1⟩
      cases o <;> simp [_convert_to_interactive, hr]
    rw [hsame]
    exact hget s k h

/-- C5: each formatter call generates the key `df-` followed by the fresh
uuid (distinct uuids giving distinct keys), stores the displayed dataframe
object itself in the weak-value cache under that key, and stores a shallow
copy — a new object (`copyOid`) sharing the rendering — as the sole entry of
the single-entry cache under the same key. -/
theorem formatter_cache_contents (url uuid : String) (copyOid : Nat)
    (s : CacheState) (df : DF) (buttons : Option (List String)) :
    let key := "df-" ++ uuid
    let s1 := (_df_formatter_with_interactive_hint url uuid copyOid s df buttons).2
    dget s1.noninteractive_df_refs key = some df ∧
    s1.last_noninteractive_df = [(key, df.copy false copyOid)] ∧
    df.copy false copyOid = ⟨copyOid, df.html⟩ ∧
    (∀ uuid2 : String, ("df-" ++ uuid = "df-" ++ uuid2) ↔ uuid = uuid2) := by
  intro key s1
  refine ⟨?_, ?_, rfl, ?_⟩
  · exact dget_dinsert_self _ _ _
  · simp [s1, _df_formatter_with_interactive_hint, dinsert]
  · intro uuid2
    exact ⟨fun h => string_append_left_cancel h, fun h => by rw [h]⟩

/-- C8: for a key present in neither cache, `_get_dataframe` prints the
"runtime no longer has a reference" error and returns `None` leaving the
state untouched, and `_convert_to_interactive` consequently returns `None`
without constructing a `DataTable`. -/
theorem get_dataframe_missing_key_error (s : CacheState) (key : String)
    (h1 : dcontains s.last_noninteractive_df key = false)
    (h2 : dcontains s.noninteractive_df_refs key = false) :
    _get_dataframe s key = (none, [_get_dataframe_error_message], s) ∧
    _convert_to_interactive s key = (none, [_get_dataframe_error_message], s) := by
  have hg : _get_dataframe s key = (none, [_get_dataframe_error_message], s) := by
    simp [_get_dataframe, h1, h2]
  exact ⟨hg, by simp [_convert_to_interactive, hg]⟩

/-- Witness for C8 at a concrete input: the empty state and an unknown key. -/
theorem get_dataframe_missing_key_error_witness :
    dcontains (⟨[], [], []⟩ : CacheState).last_noninteractive_df "df-x" = false ∧
    dcontains (⟨[], [], []⟩ : CacheState).noninteractive_df_refs "df-x" = false ∧
    (_get_dataframe ⟨[], [], []⟩ "df-x"
        = (none, [_get_dataframe_error_message], ⟨[], [], []⟩) ∧
      _convert_to_interactive ⟨[], [], []⟩ "df-x"
        = (none, [_get_dataframe_error_message], ⟨[], [], []⟩)) :=
  ⟨by decide, by decide,
    get_dataframe_missing_key_error ⟨[], [], []⟩ "df-x" (by decide) (by decide)⟩

/-- C9: retrieval is destructive and cache-local: a key held in both caches
is served first from the single-entry cache (popping it there, the weak cache
untouched), then from the weak cache (popping it there, the already-emptied
strong entry untouched), and a third retrieval fails with the error message
and an unchanged state — so with no intervening formats a key can be
retrieved at most twice. -/
theorem get_dataframe_destructive_retrieval (s : CacheState) (k : String)
    (v1 v2 : DF)
    (h1 : dget s.last_noninteractive_df k = some v1)
    (h2 : dget s.noninteractive_df_refs k = some v2) :
    _get_dataframe s k = (some v1, [],
      { s with last_noninteractive_df := dremove s.last_noninteractive_df k }) ∧
    _get_dataframe
        { s with last_noninteractive_df := dremove s.last_noninteractive_df k } k
      = (some v2, [],
        ⟨dremove s.noninteractive_df_refs k, dremove s.last_noninteractive_df k,
          s.output_callbacks⟩) ∧
    _get_dataframe ⟨dremove s.noninteractive_df_refs k,
        dremove s.last_noninteractive_df k, s.output_callbacks⟩ k
      = (none, [_get_dataframe_error_message],
        ⟨dremove s.noninteractive_df_refs k, dremove s.last_noninteractive_df k,
          s.output_callbacks⟩) := by
  have hc1 : dcontains s.last_noninteractive_df k = true := by
    rw [dcontains_eq_isSome, h1]; rfl
  have hc2 : dcontains s.noninteractive_df_refs k = true := by
    rw [dcontains_eq_isSome, h2]; rfl
  refine ⟨?_, ?_, ?_⟩
  · simp [_get_dataframe, hc1, dpop, h1]
  · simp [_get_dataframe, dcontains_dremove_self, hc2, dpop, h2]
  · simp [_get_dataframe, dcontains_dremove_self]

/-- Witness for C9 at a concrete input: a key held in both caches. -/
theorem get_dataframe_destructive_retrieval_witness :
    dget (⟨[("df-a", ⟨1, "h"⟩)], [("df-a", ⟨2, "h"⟩)],
        []⟩ : CacheState).last_noninteractive_df "df-a" = some ⟨2, "h"⟩ ∧
    dget (⟨[("df-a", ⟨1, "h"⟩)], [("df-a", ⟨2, "h"⟩)],
        []⟩ : CacheState).noninteractive_df_refs "df-a" = some ⟨1, "h"⟩ ∧
    (_get_dataframe ⟨[("df-a", ⟨1, "h"⟩)], [("df-a", ⟨2, "h"⟩)], []⟩ "df-a"
        = (some ⟨2, "h"⟩, [],
          { (⟨[("df-a", ⟨1, "h"⟩)], [("df-a", ⟨2, "h"⟩)], []⟩ : CacheState) with
            last_noninteractive_df :=
              dremove [("df-a", ⟨2, "h"⟩)] "df-a" }) ∧
      _get_dataframe { (⟨[("df-a", ⟨1, "h"⟩)], [("df-a", ⟨2, "h"⟩)],
            []⟩ : CacheState) with
          last_noninteractive_df := dremove [("df-a", ⟨2, "h"⟩)] "df-a" } "df-a"
        = (some ⟨1, "h"⟩, [],
          ⟨dremove [("df-a", ⟨1, "h"⟩)] "df-a", dremove [("df-a", ⟨2, "h"⟩)] "df-a",
            []⟩) ∧
      _get_dataframe ⟨dremove [("df-a", ⟨1, "h"⟩)] "df-a",
          dremove [("df-a", ⟨2, "h"⟩)] "df-a", []⟩ "df-a"
        = (none, [_get_dataframe_error_message],
          ⟨dremove [("df-a", ⟨1, "h"⟩)] "df-a", dremove [("df-a", ⟨2, "h"⟩)] "df-a",
            []⟩)) :=
  ⟨by decide, by decide,
    get_dataframe_destructive_retrieval
      ⟨[("df-a", ⟨1, "h"⟩)], [("df-a", ⟨2, "h"⟩)], []⟩ "df-a" ⟨2, "h"⟩ ⟨1, "h"⟩
      (by decide) (by decide)⟩

/-- C10: `_get_last_dataframe_key` returns the key of the single entry of
`_last_noninteractive_df` — in particular, right after a formatter call, that
call's key — and `None` when that cache is empty. -/
theorem get_last_dataframe_key_behavior :
    (∀ s : CacheState, s.last_noninteractive_df = [] →
      _get_last_dataframe_key s = none) ∧
    (∀ (s : CacheState) (k : String) (v : DF),
      s.last_noninteractive_df = [(k, v)] → _get_last_dataframe_key s = some k) ∧
    (∀ (url uuid : String) (copyOid : Nat) (s : CacheState) (df : DF)
        (buttons : Option (List String)),
      _get_last_dataframe_key
          (_df_formatter_with_interactive_hint url uuid copyOid s df buttons).2
        = some ("df-" ++ uuid)) := by
  refine ⟨?_, ?_, ?_⟩
  · intro s h
    simp [_get_last_dataframe_key, dkeys, h]
  · intro s k v h
    simp [_get_last_dataframe_key, dkeys, h]
  · intro url uuid copyOid s df buttons
    simp [_get_last_dataframe_key, dkeys, _df_formatter_with_interactive_hint,
      dinsert]

/-- C4: the formatter's output contains the dataframe's own HTML rendering
and the templated hint-button HTML, which in turn carries the inline CSS
style block `_HINT_BUTTON_CSS` and inline JavaScript that calls the host
bridge `google.colab.kernel.invokeFunction` with the callback name
`convertToInteractive` — registered with the host bridge during the call —
and re-renders the returned output via `google.colab.output.renderOutput`. -/
theorem formatter_html_has_components (url uuid : String) (copyOid : Nat)
    (s : CacheState) (df : DF) (buttons : Option (List String)) :
    let key := "df-" ++ uuid
    let r := _df_formatter_with_interactive_hint url uuid copyOid s df buttons
    StrContains r.1 df.repr_html ∧
    StrContains r.1 (_get_button_html url key) ∧
    StrContains (_get_button_html url key) _HINT_BUTTON_CSS ∧
    StrContains (_get_button_html url key)
      "google.colab.kernel.invokeFunction(\x27convertToInteractive\x27" ∧
    StrContains (_get_button_html url key) "google.colab.output.renderOutput" ∧
    dcontains r.2.output_callbacks "convertToInteractive" = true := by
  intro key r
  refine ⟨?_, ?_, ?_, ?_, ?_, ?_⟩
  · simp only [r, _df_formatter_with_interactive_hint, _get_html,
      String.append_assoc]
    iterate 6 apply strContains_cons
    exact strContains_head _ _
  · obtain ⟨t, ht⟩ :=
      pyJoin_cons "\n" (_get_button_html url ("df-" ++ uuid)) (buttons.getD [])
    simp only [key, r, _df_formatter_with_interactive_hint, _get_html, ht,
      String.append_assoc]
    iterate 8 apply strContains_cons
    exact strContains_head _ _
  · simp only [_get_button_html, String.append_assoc]
    iterate 7 apply strContains_cons
    exact strContains_head _ _
  · simp only [_get_button_html, String.append_assoc]
    iterate 13 apply strContains_cons
    exact strContains_head _ _
  · simp only [_get_button_html, String.append_assoc]
    iterate 17 apply strContains_cons
    exact strContains_head _ _
  · simp only [r, _df_formatter_with_interactive_hint]
    by_cases hc : dcontains s.output_callbacks "convertToInteractive"
    · simp [hc]
    · simp [hc, dcontains_dinsert_self]

/-- C7: the hint button is inserted at position 0 of the buttons list, before
any caller-supplied buttons in the emitted HTML, and the key embedded in the
emitted HTML — in the container div id and in the button's onclick call to
`convertToInteractive` — is the key under which the dataframe was stored in
both caches. -/
theorem hint_button_first_and_keys_consistent (url uuid : String)
    (copyOid : Nat) (s : CacheState) (df : DF)
    (buttons : Option (List String)) :
    let key := "df-" ++ uuid
    let r := _df_formatter_with_interactive_hint url uuid copyOid s df buttons
    r.1 = _get_html df key (_get_button_html url key :: buttons.getD []) ∧
    StrContains r.1 ("<div id=\x22" ++ key ++ "\x22") ∧
    StrContains (_get_button_html url key)
      ("convertToInteractive(\x27" ++ key ++ "\x27)") ∧
    dcontains r.2.last_noninteractive_df key = true ∧
    dcontains r.2.noninteractive_df_refs key = true := by
  intro key r
  refine ⟨rfl, ?_, ?_, ?_, ?_⟩
  · simp only [key, r, _df_formatter_with_interactive_hint, _get_html,
      String.append_assoc]
    apply strContains_cons
    exact strContains_take4 _ _ _ _ _
  · simp only [_get_button_html, String.append_assoc]
    apply strContains_cons
    exact strContains_take3 _ _ _ _
  · simp only [r, _df_formatter_with_interactive_hint]
    exact dcontains_dinsert_self _ _ _
  · simp only [r, _df_formatter_with_interactive_hint]
    exact dcontains_dinsert_self _ _ _

/-- C2: starting from any shell with no original saved yet, enabling
registers the hint formatter as the `text/html` formatter for
`pandas.core.frame.DataFrame` and saves the previously registered formatter;
a subsequent disable removes the hint formatter, re-registers exactly the
saved original and clears the saved entry, so the DataFrame html formatter
state round-trips. -/
theorem enable_disable_restores_original (sh : Shell)
    (orig : Dict (Option Formatter))
    (h : dcontains orig "text/html" = false) :
    let s1 := _enable_df_interactive_hint_formatter ⟨some sh, orig⟩
    let s2 := _disable_df_interactive_hint_formatter s1
    (∃ sh1 : Shell, s1.shell = some sh1 ∧
      dget sh1.htmlFormatter.table "pandas.core.frame.DataFrame"
        = some Formatter.hint) ∧
    dget s1.original_formatters "text/html"
      = some (dget sh.htmlFormatter.table "pandas.core.frame.DataFrame") ∧
    (∃ sh2 : Shell, s2.shell = some sh2 ∧
      dget sh2.htmlFormatter.table "pandas.core.frame.DataFrame"
        = dget sh.htmlFormatter.table "pandas.core.frame.DataFrame") ∧
    s2.original_formatters = orig := by
  intro s1 s2
  have e1 : s1 = ⟨some ⟨⟨dinsert sh.htmlFormatter.table
        "pandas.core.frame.DataFrame" Formatter.hint⟩⟩,
      dinsert orig "text/html"
        (dget sh.htmlFormatter.table "pandas.core.frame.DataFrame")⟩ := by
    simp [s1, _enable_df_interactive_hint_formatter, h,
      MimeFormatter.for_type_by_name]
  refine ⟨⟨⟨⟨dinsert sh.htmlFormatter.table "pandas.core.frame.DataFrame"
      Formatter.hint⟩⟩, by rw [e1], dget_dinsert_self _ _ _⟩,
    by rw [e1]; exact dget_dinsert_self _ _ _, ?_, ?_⟩
  · rcases hold : dget sh.htmlFormatter.table "pandas.core.frame.DataFrame"
      with _ | f
    · have e2 : s2 = ⟨some ⟨⟨dremove sh.htmlFormatter.table
            "pandas.core.frame.DataFrame"⟩⟩, orig⟩ := by
        simp [s2, e1, _disable_df_interactive_hint_formatter,
          dcontains_dinsert_self, MimeFormatter.popType,
          MimeFormatter.for_type_by_name, dpop, dget_dinsert_self, hold,
          dremove_dinsert, dremove_of_not_contains _ _ h]
      exact ⟨_, by rw [e2], by rw [dget_dremove_self]⟩
    · have e2 : s2 = ⟨some ⟨⟨dinsert (dremove sh.htmlFormatter.table
            "pandas.core.frame.DataFrame") "pandas.core.frame.DataFrame" f⟩⟩,
          orig⟩ := by
        simp [s2, e1, _disable_df_interactive_hint_formatter,
          dcontains_dinsert_self, MimeFormatter.popType,
          MimeFormatter.for_type_by_name, dpop, dget_dinsert_self, hold,
          dremove_dinsert, dremove_of_not_contains _ _ h]
      exact ⟨_, by rw [e2], by rw [dget_dinsert_self]⟩
  · rcases hold : dget sh.htmlFormatter.table "pandas.core.frame.DataFrame"
      with _ | f
    · have e2 : s2 = ⟨some ⟨⟨dremove sh.htmlFormatter.table
            "pandas.core.frame.DataFrame"⟩⟩, orig⟩ := by
        simp [s2, e1, _disable_df_interactive_hint_formatter,
          dcontains_dinsert_self, MimeFormatter.popType,
          MimeFormatter.for_type_by_name, dpop, dget_dinsert_self, hold,
          dremove_dinsert, dremove_of_not_contains _ _ h]
      rw [e2]
    · have e2 : s2 = ⟨some ⟨⟨dinsert (dremove sh.htmlFormatter.table
            "pandas.core.frame.DataFrame") "pandas.core.frame.DataFrame" f⟩⟩,
          orig⟩ := by
        simp [s2, e1, _disable_df_interactive_hint_formatter,
          dcontains_dinsert_self, MimeFormatter.popType,
          MimeFormatter.for_type_by_name, dpop, dget_dinsert_self, hold,
          dremove_dinsert, dremove_of_not_contains _ _ h]
      rw [e2]

/-- Witness for C2 at a concrete input: a shell with one previously
registered DataFrame formatter and an empty saved-originals dictionary. -/
theorem enable_disable_restores_original_witness :
    dcontains ([] : Dict (Option Formatter)) "text/html" = false ∧
    (let s1 := _enable_df_interactive_hint_formatter
        ⟨some ⟨⟨[("pandas.core.frame.DataFrame", Formatter.other 0)]⟩⟩, []⟩
     let s2 := _disable_df_interactive_hint_formatter s1
     (∃ sh1 : Shell, s1.shell = some sh1 ∧
        dget sh1.htmlFormatter.table "pandas.core.frame.DataFrame"
          = some Formatter.hint) ∧
     dget s1.original_formatters "text/html"
        = some (dget ([("pandas.core.frame.DataFrame",
            Formatter.other 0)] : Dict Formatter) "pandas.core.frame.DataFrame") ∧
     (∃ sh2 : Shell, s2.shell = some sh2 ∧
        dget sh2.htmlFormatter.table "pandas.core.frame.DataFrame"
          = dget ([("pandas.core.frame.DataFrame",
              Formatter.other 0)] : Dict Formatter)
              "pandas.core.frame.DataFrame") ∧
     s2.original_formatters = []) :=
  ⟨by decide,
    enable_disable_restores_original
      ⟨⟨[("pandas.core.frame.DataFrame", Formatter.other 0)]⟩⟩ [] (by decide)⟩

/-- C6: enabling is idempotent with respect to the saved original: a second
enable before any disable is a no-op, `_original_formatters` still records
only the formatter in place before the first enable, and a single disable
then restores that true original rather than the hint formatter. -/
theorem enable_idempotent_saved_original (sh : Shell)
    (orig : Dict (Option Formatter))
    (h : dcontains orig "text/html" = false) :
    let s1 := _enable_df_interactive_hint_formatter ⟨some sh, orig⟩
    let s2 := _enable_df_interactive_hint_formatter s1
    s2 = s1 ∧
    dget s2.original_formatters "text/html"
      = some (dget sh.htmlFormatter.table "pandas.core.frame.DataFrame") ∧
    (∃ sh3 : Shell, (_disable_df_interactive_hint_formatter s2).shell = some sh3 ∧
      dget sh3.htmlFormatter.table "pandas.core.frame.DataFrame"
        = dget sh.htmlFormatter.table "pandas.core.frame.DataFrame") := by
  intro s1 s2
  have e1 : s1 = ⟨some ⟨⟨dinsert sh.htmlFormatter.table
        "pandas.core.frame.DataFrame" Formatter.hint⟩⟩,
      dinsert orig "text/html"
        (dget sh.htmlFormatter.table "pandas.core.frame.DataFrame")⟩ := by
    simp [s1, _enable_df_interactive_hint_formatter, h,
      MimeFormatter.for_type_by_name]
  have e21 : s2 = s1 := by
    rw [show s2 = _enable_df_interactive_hint_formatter s1 from rfl, e1]
    simp [_enable_df_interactive_hint_formatter, dcontains_dinsert_self]
  refine ⟨e21, by rw [e21, e1]; exact dget_dinsert_self _ _ _, ?_⟩
  rw [e21]
  rcases hold : dget sh.htmlFormatter.table "pandas.core.frame.DataFrame"
    with _ | f
  · have e2 : _disable_df_interactive_hint_formatter s1
        = ⟨some ⟨⟨dremove sh.htmlFormatter.table
            "pandas.core.frame.DataFrame"⟩⟩, orig⟩ := by
      simp [e1, _disable_df_interactive_hint_formatter, dcontains_dinsert_self,
        MimeFormatter.popType, MimeFormatter.for_type_by_name, dpop,
        dget_dinsert_self, hold, dremove_dinsert,
        dremove_of_not_contains _ _ h]
    exact ⟨_, by rw [e2], by rw [dget_dremove_self]⟩
  · have e2 : _disable_df_interactive_hint_formatter s1
        = ⟨some ⟨⟨dinsert (dremove sh.htmlFormatter.table
            "pandas.core.frame.DataFrame") "pandas.core.frame.DataFrame" f⟩⟩,
          orig⟩ := by
      simp [e1, _disable_df_interactive_hint_formatter, dcontains_dinsert_self,
        MimeFormatter.popType, MimeFormatter.for_type_by_name, dpop,
        dget_dinsert_self, hold, dremove_dinsert,
        dremove_of_not_contains _ _ h]
    exact ⟨_, by rw [e2], by rw [dget_dinsert_self]⟩

/-- Witness for C6 at a concrete input: a shell with no DataFrame formatter
registered yet and an empty saved-originals dictionary. -/
theorem enable_idempotent_saved_original_witness :
    dcontains ([] : Dict (Option Formatter)) "text/html" = false ∧
    (let s1 := _enable_df_interactive_hint_formatter ⟨some ⟨⟨[]⟩⟩, []⟩
     let s2 := _enable_df_interactive_hint_formatter s1
     s2 = s1 ∧
     dget s2.original_formatters "text/html"
        = some (dget ([] : Dict Formatter) "pandas.core.frame.DataFrame") ∧
     (∃ sh3 : Shell,
        (_disable_df_interactive_hint_formatter s2).shell = some sh3 ∧
        dget sh3.htmlFormatter.table "pandas.core.frame.DataFrame"
          = dget ([] : Dict Formatter) "pandas.core.frame.DataFrame")) :=
  ⟨by decide, enable_idempotent_saved_original ⟨⟨[]⟩⟩ [] (by decide)⟩

end InteractiveTableHint
